import Mathlib

/-!
Verification of the domain_classifier repository: a shallow embedding of the
four-stage classification pipeline (HTTP fetch, browser fetch with retries,
commercial fallback fetch, vision-assisted scoring) together with proofs of
the specification claims about it.

Numeric scores are modelled as rationals; external effects (HTTP responses,
browser navigations, the vision model API) are supplied as explicit
environment values, so every function here is a pure, executable translation
of the corresponding Python code.
-/

namespace DomainClassifier

/-! ## String helpers

List-level implementations of the Python string operations used by the
pipeline (slicing, lowercasing, substring containment, suffix test), kept
kernel-computable. -/

/-- Python-style slice s[:n]. -/
def strTake (s : String) (n : ℕ) : String := ⟨s.data.take n⟩

/-- Python str.lower (ASCII-level, as used on error messages here). -/
def lowerStr (s : String) : String := ⟨s.data.map Char.toLower⟩

/-- Python substring containment, pat in s. -/
def containsSub (s pat : String) : Bool :=
  (List.range (s.length + 1)).any (fun i => pat.data.isPrefixOf (s.data.drop i))

/-- Python str.endswith. -/
def endsWithB (s suf : String) : Bool := suf.data.isSuffixOf s.data

/-! ## Configuration (settings.yaml surface consumed by the pipeline) -/

/-- Scoring-related configuration: the stage-B trigger band, the balanced
stage-B fusion weights, the three label thresholds and the generalist
penalty weight. -/
structure ScoringConfig where
  stage_b_trigger_lo : ℚ
  stage_b_trigger_hi : ℚ
  weight_text : ℚ
  weight_vision : ℚ
  pure_bodywear : ℚ
  bodywear_leaning : ℚ
  generalist : ℚ
  generalist_penalty_weight : ℚ

/-- Vision configuration. hasClient records whether an OpenAI client was
constructed (an API key was present); ClassifierService.__init__ disables
vision when no key is available, so enabled implies hasClient there. -/
structure VisionConfig where
  enabled : Bool
  hasClient : Bool
  imagesPerDomain : ℕ

/-- Whole configuration of ClassifierService, including whether a Firecrawl
fallback fetcher was configured (FIRECRAWL_API_KEY present). -/
structure Config where
  vision : VisionConfig
  scoring : ScoringConfig
  firecrawlConfigured : Bool

/-! ## Feature extractor: text scoring (feature_extractor.py, calculate_text_score) -/

/-- Embedding of FeatureExtractor.calculate_text_score, lines 378-397 of
feature_extractor.py, given the already computed term-match counts: the
counts are normalized by bodywear_count + generalist_count + 1, the weighted
generalist penalty is subtracted, and the result is clamped at 0. -/
def calculate_text_score (penalty_weight : ℚ) (bodywear_count generalist_count : ℕ) : ℚ :=
  let total_terms : ℚ := (bodywear_count : ℚ) + (generalist_count : ℚ) + 1
  let bodywear_ratio : ℚ := (bodywear_count : ℚ) / total_terms
  let text_score : ℚ := bodywear_ratio
  let generalist_penalty : ℚ := ((generalist_count : ℚ) / total_terms) * penalty_weight
  max 0 (text_score - generalist_penalty)

/-! ## Scorer (scorer.py) -/

/-- Feature set handed to the scorer (the dict built in classify_domain and
consumed by Scorer.classify). Screenshot bytes are a byte list; Python
truthiness of the field distinguishes a non-empty byte string. -/
structure Features where
  nav_text : List String
  hero_text : List String
  cta_text : List String
  image_urls : List String
  screenshot_bytes : Option (List ℕ)
deriving DecidableEq

/-- Python truthiness of an optional byte string: present and non-empty. -/
def truthyBytes : Option (List ℕ) → Bool
  | some l => !l.isEmpty
  | none => false

/-- Outcomes of the external vision model calls, supplied as an environment:
one Optional score per processed product image (None when the API call
raised), and the outcome of the single screenshot-analysis call (an
exception message, or a parsed score). -/
structure VisionEnv where
  imageOutcomes : List (Option ℚ)
  screenshotCall : Except String ℚ

/-- Which vision evidence path Scorer.classify took (trace information). -/
inductive VisionPath
  | noVision
  | viaImages
  | viaScreenshot
deriving DecidableEq

/-- Result record of Scorer.classify. -/
structure ScorerResult where
  label : String
  confidence : ℚ
  text_score : ℚ
  vision_score : Option ℚ
  final_score : ℚ
  image_count : ℕ
  stage : String
  visionPath : VisionPath

/-- Embedding of Scorer._analyze_images (scorer.py lines 153-190): with no
client the call degrades to 0.5; otherwise the per-image scores (dropping
failed calls) are averaged, again degrading to 0.5 when none survive. -/
def analyze_images (hasClient : Bool) (imageOutcomes : List (Option ℚ)) : ℚ :=
  if hasClient = false then 1/2
  else
    let scores := imageOutcomes.filterMap id
    if scores.isEmpty then 1/2
    else scores.sum / (scores.length : ℚ)

/-- Known quota/rate-limit phrases matched against vision error text. -/
def quota_phrases : List String :=
  ["rate limit", "quota", "insufficient_quota", "429", "too many requests"]

/-- Embedding of the quota detection in Scorer error handlers. -/
def is_quota_error (msg : String) : Bool :=
  quota_phrases.any (fun p => containsSub (lowerStr msg) p)

/-- Embedding of Scorer._analyze_screenshot_bytes: an exception (whether or
not it is classified as a quota error, which only changes the tracking
message) yields None; a successful call yields the parsed score. -/
def analyze_screenshot_bytes (call : Except String ℚ) : Option ℚ :=
  match call with
  | .ok v => some v
  | .error e =>
      -- the quota branch and the generic branch differ only in reporting
      if is_quota_error e = true then none else none

/-- Text-extraction-failure test from Scorer.classify lines 75-78: sparse
navigation and sparse headings. -/
def text_extraction_failed (f : Features) : Prop :=
  f.nav_text.length < 5 ∧ f.hero_text.length < 3

instance (f : Features) : Decidable (text_extraction_failed f) := by
  unfold text_extraction_failed; infer_instance

/-- Stage-B trigger condition from Scorer.classify lines 80-89. -/
def scorer_need_vision (vc : VisionConfig) (sc : ScoringConfig) (f : Features) (t : ℚ) : Prop :=
  vc.enabled = true ∧ vc.hasClient = true ∧
    ((sc.stage_b_trigger_lo ≤ t ∧ t ≤ sc.stage_b_trigger_hi) ∨ text_extraction_failed f)

instance (vc : VisionConfig) (sc : ScoringConfig) (f : Features) (t : ℚ) :
    Decidable (scorer_need_vision vc sc f t) := by
  unfold scorer_need_vision; infer_instance

/-- Vision acquisition step of Scorer.classify (lines 91-108): product
images first (the average is always a score), otherwise the screenshot
(which may yield no score), otherwise no vision. Returns the optional
vision score, the image_count evidence and the trace of the path taken. -/
def scorer_vision_step (vc : VisionConfig) (sc : ScoringConfig) (f : Features) (t : ℚ)
    (venv : VisionEnv) : Option ℚ × ℕ × VisionPath :=
  if scorer_need_vision vc sc f t then
    if f.image_urls ≠ [] then
      (some (analyze_images vc.hasClient venv.imageOutcomes),
        (f.image_urls.take vc.imagesPerDomain).length, VisionPath.viaImages)
    else if truthyBytes f.screenshot_bytes = true then
      match analyze_screenshot_bytes venv.screenshotCall with
      | some v => (some v, 1, VisionPath.viaScreenshot)
      | none => (none, 0, VisionPath.viaScreenshot)
    else (none, 0, VisionPath.noVision)
  else (none, 0, VisionPath.noVision)

/-- Score fusion of Scorer.classify (lines 109-132): with a vision score the
weights are 10/90 after failed text extraction and the configured balanced
weights otherwise (stage B); without one the text score stands (stage A). -/
def scorer_fused (sc : ScoringConfig) (f : Features) (t : ℚ) (vs : Option ℚ) : ℚ × String :=
  match vs with
  | some v =>
      if text_extraction_failed f then (1/10 * t + 9/10 * v, "B")
      else (sc.weight_text * t + sc.weight_vision * v, "B")
  | none => (t, "A")

/-- Label assignment of Scorer.classify (scorer.py lines 134-147): the
if/elif threshold chain over the final score, with the confidence attached
by each branch. -/
def assign_label (sc : ScoringConfig) (final_score : ℚ) : String × ℚ :=
  if sc.pure_bodywear ≤ final_score then ("Pure Bodywear", final_score)
  else if sc.bodywear_leaning ≤ final_score then ("Bodywear Leaning", final_score)
  else if sc.generalist ≤ final_score then ("Needs Review", 1/2)
  else ("Generalist", 1 - final_score)

/-- Embedding of Scorer.classify (scorer.py lines 35-151). -/
def scorer_classify (vc : VisionConfig) (sc : ScoringConfig) (f : Features) (t : ℚ)
    (venv : VisionEnv) : ScorerResult :=
  let vs := scorer_vision_step vc sc f t venv
  let fused := scorer_fused sc f t vs.1
  let lc := assign_label sc fused.1
  { label := lc.1, confidence := lc.2, text_score := t, vision_score := vs.1,
    final_score := fused.1, image_count := vs.2.1, stage := fused.2, visionPath := vs.2.2 }

/-! Projection lemmas for scorer_classify. -/

theorem scorer_classify_vision_score (vc : VisionConfig) (sc : ScoringConfig) (f : Features)
    (t : ℚ) (venv : VisionEnv) :
    (scorer_classify vc sc f t venv).vision_score = (scorer_vision_step vc sc f t venv).1 := rfl

theorem scorer_classify_final_score (vc : VisionConfig) (sc : ScoringConfig) (f : Features)
    (t : ℚ) (venv : VisionEnv) :
    (scorer_classify vc sc f t venv).final_score
      = (scorer_fused sc f t (scorer_vision_step vc sc f t venv).1).1 := rfl

theorem scorer_classify_stage (vc : VisionConfig) (sc : ScoringConfig) (f : Features)
    (t : ℚ) (venv : VisionEnv) :
    (scorer_classify vc sc f t venv).stage
      = (scorer_fused sc f t (scorer_vision_step vc sc f t venv).1).2 := rfl

theorem scorer_classify_label (vc : VisionConfig) (sc : ScoringConfig) (f : Features)
    (t : ℚ) (venv : VisionEnv) :
    (scorer_classify vc sc f t venv).label
      = (assign_label sc (scorer_classify vc sc f t venv).final_score).1 := rfl

theorem scorer_classify_text_score (vc : VisionConfig) (sc : ScoringConfig) (f : Features)
    (t : ℚ) (venv : VisionEnv) :
    (scorer_classify vc sc f t venv).text_score = t := rfl

/-- The four non-error labels. -/
def nonErrorLabels : List String :=
  ["Pure Bodywear", "Bodywear Leaning", "Needs Review", "Generalist"]

theorem assign_label_mem (sc : ScoringConfig) (s : ℚ) :
    (assign_label sc s).1 ∈ nonErrorLabels := by
  unfold assign_label nonErrorLabels
  split_ifs <;> simp

theorem assign_label_ne_error (sc : ScoringConfig) (s : ℚ) :
    (assign_label sc s).1 ≠ "Error" := by
  unfold assign_label
  split_ifs <;> simp

/-! ## Claim C3: fusion weights -/

/-- C3: whenever Scorer.classify obtains a vision score v for text score t,
the final score is 0.1*t + 0.9*v exactly when text extraction was judged
failed (fewer than 5 nav terms and fewer than 3 headings), and the
configured balanced stage-B weights apply otherwise. -/
theorem C3_fusion_weights (vc : VisionConfig) (sc : ScoringConfig) (f : Features) (t : ℚ)
    (venv : VisionEnv) (v : ℚ)
    (hv : (scorer_classify vc sc f t venv).vision_score = some v) :
    (scorer_classify vc sc f t venv).final_score
      = if text_extraction_failed f
        then 1/10 * t + 9/10 * v
        else sc.weight_text * t + sc.weight_vision * v := by
  rw [scorer_classify_vision_score] at hv
  rw [scorer_classify_final_score, hv]
  unfold scorer_fused
  split_ifs <;> rfl

/-- Witness for C3 at a concrete input: failed text extraction, vision score
obtained from the screenshot, final score 0.1*0 + 0.9*(1/2). -/
theorem C3_fusion_weights_witness :
    (scorer_classify ⟨true, true, 3⟩
        ⟨2/5, 3/4, 6/10, 4/10, 4/5, 13/20, 9/20, 1/2⟩
        ⟨[], [], [], [], some [7, 7]⟩ 0 ⟨[], Except.ok (1/2)⟩).final_score
      = 1/10 * 0 + 9/10 * (1/2) := by
  have h := C3_fusion_weights ⟨true, true, 3⟩
    ⟨2/5, 3/4, 6/10, 4/10, 4/5, 13/20, 9/20, 1/2⟩
    ⟨[], [], [], [], some [7, 7]⟩ 0 ⟨[], Except.ok (1/2)⟩ (1/2)
    (by norm_num [scorer_classify_vision_score, scorer_vision_step, scorer_need_vision,
      text_extraction_failed, truthyBytes, analyze_screenshot_bytes])
  rw [h]
  norm_num [text_extraction_failed]

/-! ## Claim C4: label thresholds partition the score range -/

/-- C4: for every final score in the unit interval exactly one of the four
non-error labels is assigned by the threshold chain, each with exactly the
stated confidence: Pure Bodywear and Bodywear Leaning carry the final score,
Needs Review carries 0.5, Generalist carries 1 minus the final score. -/
theorem C4_label_thresholds (sc : ScoringConfig) (s : ℚ) (_h0 : 0 ≤ s) (_h1 : s ≤ 1) :
    (assign_label sc s = ("Pure Bodywear", s) ∧ sc.pure_bodywear ≤ s)
    ∨ (assign_label sc s = ("Bodywear Leaning", s) ∧ s < sc.pure_bodywear
        ∧ sc.bodywear_leaning ≤ s)
    ∨ (assign_label sc s = ("Needs Review", 1/2) ∧ s < sc.pure_bodywear
        ∧ s < sc.bodywear_leaning ∧ sc.generalist ≤ s)
    ∨ (assign_label sc s = ("Generalist", 1 - s) ∧ s < sc.pure_bodywear
        ∧ s < sc.bodywear_leaning ∧ s < sc.generalist) := by
  unfold assign_label
  split_ifs with hp hl hg
  · exact Or.inl ⟨rfl, hp⟩
  · exact Or.inr (Or.inl ⟨rfl, not_le.mp hp, hl⟩)
  · exact Or.inr (Or.inr (Or.inl ⟨rfl, not_le.mp hp, not_le.mp hl, hg⟩))
  · exact Or.inr (Or.inr (Or.inr ⟨rfl, not_le.mp hp, not_le.mp hl, not_le.mp hg⟩))

/-- Witness for C4 at score 7/10 with the default-style thresholds: the
Bodywear Leaning branch fires. -/
theorem C4_label_thresholds_witness :
    (0:ℚ) ≤ 7/10 ∧ (7:ℚ)/10 ≤ 1 ∧
      assign_label ⟨2/5, 3/4, 6/10, 4/10, 4/5, 13/20, 9/20, 1/2⟩ (7/10)
        = ("Bodywear Leaning", 7/10) := by
  refine ⟨by norm_num, by norm_num, ?_⟩
  have h := C4_label_thresholds ⟨2/5, 3/4, 6/10, 4/10, 4/5, 13/20, 9/20, 1/2⟩ (7/10)
    (by norm_num) (by norm_num)
  rcases h with ⟨_, hp⟩ | ⟨he, _⟩ | ⟨_, _, hl, _⟩ | ⟨_, _, hl, _⟩
  · exact absurd hp (by norm_num)
  · exact he
  · exact absurd hl (by norm_num)
  · exact absurd hl (by norm_num)

/-! ## Claim C5: text score formula and bounds -/

/-- C5: for all non-negative counts b, g and non-negative penalty weight w,
the computed text score equals max(0, b/(b+g+1) - w*g/(b+g+1)), and this
value lies in the unit interval. -/
theorem C5_text_score_formula_bounds (b g : ℕ) (w : ℚ) (hw : 0 ≤ w) :
    calculate_text_score w b g
      = max 0 ((b : ℚ) / ((b : ℚ) + (g : ℚ) + 1) - w * ((g : ℚ) / ((b : ℚ) + (g : ℚ) + 1)))
    ∧ 0 ≤ calculate_text_score w b g ∧ calculate_text_score w b g ≤ 1 := by
  have ht : (0 : ℚ) < (b : ℚ) + (g : ℚ) + 1 := by positivity
  refine ⟨?_, ?_, ?_⟩
  · unfold calculate_text_score
    ring_nf
  · unfold calculate_text_score
    exact le_max_left _ _
  · unfold calculate_text_score
    refine max_le (by norm_num) ?_
    have hb1 : (b : ℚ) / ((b : ℚ) + (g : ℚ) + 1) ≤ 1 := by
      rw [div_le_one ht]
      have : (0 : ℚ) ≤ (g : ℚ) := by positivity
      linarith
    have hp : 0 ≤ ((g : ℚ) / ((b : ℚ) + (g : ℚ) + 1)) * w := by positivity
    linarith

/-- Witness for C5 at b = 2, g = 1, w = 1/2: the score is
max(0, 2/4 - (1/2)*(1/4)) = 3/8, inside the unit interval. -/
theorem C5_text_score_formula_bounds_witness :
    (0:ℚ) ≤ 1/2 ∧ calculate_text_score (1/2) 2 1 = 3/8 := by
  refine ⟨by norm_num, ?_⟩
  have h := (C5_text_score_formula_bounds 2 1 (1/2) (by norm_num)).1
  rw [h]
  norm_num

/-! ## Claim C6: monotonicity of the text score -/

/-- C6: the text score is monotonically non-decreasing in the bodywear count
at fixed generalist count, and monotonically non-increasing in the
generalist count at fixed bodywear count, for any non-negative penalty
weight. -/
theorem C6_text_score_monotone (w : ℚ) (b1 b2 g1 g2 : ℕ)
    (hw : 0 ≤ w) (hb : b1 ≤ b2) (hg : g1 ≤ g2) :
    calculate_text_score w b1 g1 ≤ calculate_text_score w b2 g1
    ∧ calculate_text_score w b1 g2 ≤ calculate_text_score w b1 g1 := by
  have hgq : (0 : ℚ) ≤ (g1 : ℚ) := by positivity
  have hbq : (0 : ℚ) ≤ (b1 : ℚ) := by positivity
  have hbb : (b1 : ℚ) ≤ (b2 : ℚ) := by exact_mod_cast hb
  have hgg : (g1 : ℚ) ≤ (g2 : ℚ) := by exact_mod_cast hg
  have key : ∀ (b g : ℕ), calculate_text_score w b g
      = max 0 (((b : ℚ) - (g : ℚ) * w) / ((b : ℚ) + (g : ℚ) + 1)) := by
    intro b g
    unfold calculate_text_score
    rw [sub_div]
    ring_nf
  constructor
  · rw [key b1 g1, key b2 g1]
    refine max_le_max le_rfl ?_
    have h1 : (0 : ℚ) < (b1 : ℚ) + (g1 : ℚ) + 1 := by positivity
    have h2 : (0 : ℚ) < (b2 : ℚ) + (g1 : ℚ) + 1 := by positivity
    rw [div_le_div_iff₀ h1 h2]
    have hfac : (0 : ℚ) ≤ ((b2 : ℚ) - (b1 : ℚ)) * ((g1 : ℚ) + 1 + (g1 : ℚ) * w) := by
      have : (0 : ℚ) ≤ (g1 : ℚ) + 1 + (g1 : ℚ) * w := by positivity
      exact mul_nonneg (by linarith) this
    nlinarith [hfac]
  · rw [key b1 g1, key b1 g2]
    refine max_le_max le_rfl ?_
    have h1 : (0 : ℚ) < (b1 : ℚ) + (g1 : ℚ) + 1 := by positivity
    have h2 : (0 : ℚ) < (b1 : ℚ) + (g2 : ℚ) + 1 := by positivity
    rw [div_le_div_iff₀ h2 h1]
    have hfac : (0 : ℚ) ≤ ((g2 : ℚ) - (g1 : ℚ)) * ((b1 : ℚ) + (b1 : ℚ) * w + w) := by
      have : (0 : ℚ) ≤ (b1 : ℚ) + (b1 : ℚ) * w + w := by positivity
      exact mul_nonneg (by linarith) this
    nlinarith [hfac]

/-- Witness for C6 at w = 1/2, comparing counts (1,1) against (3,1) and
(1,1) against (1,4). -/
theorem C6_text_score_monotone_witness :
    calculate_text_score (1/2) 1 1 ≤ calculate_text_score (1/2) 3 1
    ∧ calculate_text_score (1/2) 1 4 ≤ calculate_text_score (1/2) 1 1 :=
  C6_text_score_monotone (1/2) 1 3 1 4 (by norm_num) (by norm_num) (by norm_num)

/-! ## HTTP fetcher (http_fetcher.py, HttpFetcher.fetch_domain) -/

/-- Result dict of HttpFetcher.fetch_domain. -/
structure HttpResult where
  success : Bool
  http_status : Option ℕ
  final_url : Option String
  nav_text : List String
  hero_text : List String
  all_links_text : List String
  error : Option String
deriving DecidableEq

/-- Parsed page content for a 200 response: the nav-region link texts,
heading texts and raw link texts that BeautifulSoup extraction produces
(the markup parsing itself is supplied by the environment). -/
structure ParsedPage where
  nav_text : List String
  hero_text : List String
  all_links_text : List String
deriving DecidableEq

/-- Outcome of one HTTP GET of a URL: either the request/read raised an
exception with a message, or it returned a status, a final (post-redirect)
URL and the parsed page. -/
inductive UrlOutcome
  | raise (msg : String)
  | respond (status : ℕ) (finalUrl : String) (page : ParsedPage)
deriving DecidableEq

/-- Whether a URL outcome is a 200 response. -/
def UrlOutcome.is200 : UrlOutcome → Bool
  | .respond s _ _ => s == 200
  | .raise _ => false

/-- Second loop iteration of HttpFetcher.fetch_domain, carrying the result
state left by the first: records status/final_url of any response, fills the
text fields and flips success on a 200, overwrites the error message on an
exception. -/
def http_try_second (r : HttpResult) (o : UrlOutcome) : HttpResult :=
  match o with
  | .respond s url page =>
      let r1 := { r with http_status := some s, final_url := some url }
      if s = 200 then
        { r1 with
          success := true
          nav_text := page.nav_text
          hero_text := page.hero_text
          all_links_text := page.all_links_text }
      else r1
  | .raise e => { r with error := some e }

/-- Embedding of HttpFetcher.fetch_domain (http_fetcher.py lines 33-114):
tries https://domain then http://domain against the environment fetch,
returning as soon as a 200 is parsed. Also returns the list of URLs
actually attempted. -/
def http_fetch_domain (domain : String) (fetch : String → UrlOutcome) :
    HttpResult × List String :=
  let r0 : HttpResult := ⟨false, none, none, [], [], [], none⟩
  let u1 := "https://" ++ domain
  let u2 := "http://" ++ domain
  match fetch u1 with
  | .respond s url page =>
      let r1 := { r0 with http_status := some s, final_url := some url }
      if s = 200 then
        ({ r1 with
            success := true
            nav_text := page.nav_text
            hero_text := page.hero_text
            all_links_text := page.all_links_text }, [u1])
      else (http_try_second r1 (fetch u2), [u1, u2])
  | .raise e => (http_try_second { r0 with error := some e } (fetch u2), [u1, u2])

/-- Error message left behind by the two attempts: the most recent
exception message (the HTTP attempt overwrites the HTTPS one), or none if
no attempt raised. -/
def http_last_error (o1 o2 : UrlOutcome) : Option String :=
  match o2 with
  | .raise e2 => some e2
  | .respond _ _ _ =>
      match o1 with
      | .raise e1 => some e1
      | .respond _ _ _ => none

/-! ## Claim C9: HTTP fetcher scheme order and error reporting -/

/-- C9 counterexample: when the HTTPS attempt raises "E1" and the HTTP
attempt raises "E2", fetch_domain returns success = false carrying the
second error message "E2", not the first one "E1" as the claim states
(result['error'] is overwritten by each subsequent exception). -/
theorem C9_counterexample :
    (http_fetch_domain "example.com"
        (fun u => if u = "https://example.com" then UrlOutcome.raise "E1"
                  else UrlOutcome.raise "E2")).1.success = false
    ∧ (http_fetch_domain "example.com"
        (fun u => if u = "https://example.com" then UrlOutcome.raise "E1"
                  else UrlOutcome.raise "E2")).1.error = some "E2"
    ∧ (http_fetch_domain "example.com"
        (fun u => if u = "https://example.com" then UrlOutcome.raise "E1"
                  else UrlOutcome.raise "E2")).1.error ≠ some "E1" := by
  refine ⟨?_, ?_, ?_⟩ <;> decide

/-- C9 amended: the fetcher tries https://domain first and http://domain
second, returns immediately on the first scheme that yields HTTP 200
without trying the other, succeeds exactly when some attempted scheme
yields 200, and on failure carries the most recent exception message (the
HTTP attempt's if it raised, else the HTTPS attempt's, and none when the
failures were non-200 responses). -/
theorem C9_http_fetch_characterization (domain : String) (fetch : String → UrlOutcome) :
    ((http_fetch_domain domain fetch).2
      = if (fetch ("https://" ++ domain)).is200 = true
        then ["https://" ++ domain]
        else ["https://" ++ domain, "http://" ++ domain])
    ∧ ((http_fetch_domain domain fetch).1.success = true
        ↔ ((fetch ("https://" ++ domain)).is200 = true
            ∨ (fetch ("http://" ++ domain)).is200 = true))
    ∧ ((http_fetch_domain domain fetch).1.success = false
        → (http_fetch_domain domain fetch).1.error
            = http_last_error (fetch ("https://" ++ domain)) (fetch ("http://" ++ domain)))
    ∧ (∀ s url page, fetch ("https://" ++ domain) = UrlOutcome.respond s url page
        → s = 200
        → (http_fetch_domain domain fetch).1
            = ⟨true, some 200, some url, page.nav_text, page.hero_text,
                page.all_links_text, none⟩) := by
  unfold http_fetch_domain
  rcases h1 : fetch ("https://" ++ domain) with e1 | ⟨s1, url1, page1⟩
  · rcases h2 : fetch ("http://" ++ domain) with e2 | ⟨s2, url2, page2⟩
    · refine ⟨by simp [h1, UrlOutcome.is200], ?_, ?_, ?_⟩
      · simp [h1, h2, http_try_second, UrlOutcome.is200]
      · intro _
        simp [h1, h2, http_try_second, http_last_error]
      · intro s url page hresp
        exact absurd hresp (by simp)
    · by_cases hs2 : s2 = 200
      · subst hs2
        refine ⟨by simp [h1, UrlOutcome.is200], ?_, ?_, ?_⟩
        · simp [h1, h2, http_try_second, UrlOutcome.is200]
        · intro hfail
          simp [h1, h2, http_try_second] at hfail
        · intro s url page hresp
          exact absurd hresp (by simp)
      · refine ⟨by simp [h1, UrlOutcome.is200], ?_, ?_, ?_⟩
        · simp [h1, h2, http_try_second, UrlOutcome.is200, hs2]
        · intro _
          simp [h1, h2, http_try_second, http_last_error, hs2]
        · intro s url page hresp
          exact absurd hresp (by simp)
  · by_cases hs1 : s1 = 200
    · subst hs1
      refine ⟨by simp [h1, UrlOutcome.is200], ?_, ?_, ?_⟩
      · simp [h1, UrlOutcome.is200]
      · intro hfail
        simp [h1] at hfail
      · intro s url page hresp
        injection hresp with hA hB hC
        subst hB
        subst hC
        intro _
        simp [h1]
    · rcases h2 : fetch ("http://" ++ domain) with e2 | ⟨s2, url2, page2⟩
      · refine ⟨by simp [h1, UrlOutcome.is200, hs1], ?_, ?_, ?_⟩
        · simp [h1, h2, http_try_second, UrlOutcome.is200, hs1]
        · intro _
          simp [h1, h2, http_try_second, http_last_error, hs1]
        · intro s url page hresp
          injection hresp with hA hB hC
          subst hA
          exact fun h => absurd h hs1
      · by_cases hs2 : s2 = 200
        · subst hs2
          refine ⟨by simp [h1, UrlOutcome.is200, hs1], ?_, ?_, ?_⟩
          · simp [h1, h2, http_try_second, UrlOutcome.is200, hs1]
          · intro hfail
            simp [h1, h2, http_try_second, hs1] at hfail
          · intro s url page hresp
            injection hresp with hA hB hC
            subst hA
            exact fun h => absurd h hs1
        · refine ⟨by simp [h1, UrlOutcome.is200, hs1], ?_, ?_, ?_⟩
          · simp [h1, h2, http_try_second, UrlOutcome.is200, hs1, hs2]
          · intro _
            simp [h1, h2, http_try_second, http_last_error, hs1, hs2]
          · intro s url page hresp
            injection hresp with hA hB hC
            subst hA
            exact fun h => absurd h hs1

/-- Witness for C9 at a concrete environment: https yields 200, so only one
URL is attempted and the parsed page is returned. -/
theorem C9_http_fetch_characterization_witness :
    (http_fetch_domain "shop.example"
        (fun u => if u = "https://shop.example"
                  then UrlOutcome.respond 200 "https://shop.example/" ⟨["bras"], ["sale"], ["bras"]⟩
                  else UrlOutcome.raise "unreachable")).2 = ["https://shop.example"]
    ∧ (http_fetch_domain "shop.example"
        (fun u => if u = "https://shop.example"
                  then UrlOutcome.respond 200 "https://shop.example/" ⟨["bras"], ["sale"], ["bras"]⟩
                  else UrlOutcome.raise "unreachable")).1
        = ⟨true, some 200, some "https://shop.example/", ["bras"], ["sale"], ["bras"], none⟩ := by
  have h := C9_http_fetch_characterization "shop.example"
    (fun u => if u = "https://shop.example"
              then UrlOutcome.respond 200 "https://shop.example/" ⟨["bras"], ["sale"], ["bras"]⟩
              else UrlOutcome.raise "unreachable")
  refine ⟨?_, ?_⟩
  · rw [h.1]
    decide
  · exact h.2.2.2 200 "https://shop.example/" ⟨["bras"], ["sale"], ["bras"]⟩ (by decide) rfl

/-! ## Browser fetcher (playwright_fetcher.py, PlaywrightFetcher) -/

/-- Result dict of PlaywrightFetcher.fetch_domain. -/
structure PwResult where
  success : Bool
  http_status : Option ℕ
  final_url : Option String
  nav_text : List String
  hero_text : List String
  all_links_text : List String
  screenshot_bytes : Option (List ℕ)
  error : Option String
deriving DecidableEq

/-- A browser navigation response: HTTP status and final page URL. page.goto
may also return None, modelled by wrapping in Option at the use site. -/
structure GotoResp where
  status : ℕ
  url : String
deriving DecidableEq

/-- Text features produced by the in-page extraction script. -/
structure ExtractedText where
  nav_text : List String
  hero_text : List String
  all_links_text : List String
deriving DecidableEq

/-- Environment of a single PlaywrightFetcher.fetch_domain attempt: the two
navigation outcomes (each either an exception message or an optional
response), the screenshot captured on the challenge-evidence path, the
early screenshot captured after successful navigation (None when capture
failed), and the combined outcome of the remaining steps (selector wait,
modal dismissal, in-page extraction), which the outer handler catches if it
raises. -/
structure PwAttemptEnv where
  httpsGoto : Except String (Option GotoResp)
  httpGoto : Except String (Option GotoResp)
  challengeShot : Option (List ℕ)
  earlyShot : Option (List ℕ)
  rest : Except String ExtractedText

/-- Empty result dict initialised at the top of fetch_domain. -/
def pwBase : PwResult := ⟨false, none, none, [], [], [], none, none⟩

/-- Steps of fetch_domain after a navigation that is not a detected
challenge: capture the early screenshot, then run the remaining steps; an
exception there is caught by the outer handler, which records the truncated
message but keeps the evidence already gathered. -/
def pw_after_nav (env : PwAttemptEnv) (status : Option ℕ) (url : Option String) : PwResult :=
  let r := { pwBase with
    http_status := status
    final_url := url
    screenshot_bytes := env.earlyShot }
  match env.rest with
  | .ok ext =>
      { r with
        success := true
        nav_text := ext.nav_text
        hero_text := ext.hero_text
        all_links_text := ext.all_links_text }
  | .error e => { r with error := some (strTake e 200) }

/-- Embedding of PlaywrightFetcher.fetch_domain (playwright_fetcher.py lines
24-158). An HTTPS response with status 403/503 is a detected challenge:
the error is set, an evidence screenshot is attempted and the attempt ends.
On an HTTPS exception the HTTP scheme is tried, without challenge
detection; if that also raises, the combined message is recorded. -/
def pw_fetch_domain (env : PwAttemptEnv) : PwResult :=
  match env.httpsGoto with
  | .ok (some resp) =>
      if resp.status = 403 ∨ resp.status = 503 then
        { pwBase with
          http_status := some resp.status
          final_url := some resp.url
          screenshot_bytes := env.challengeShot
          error := some ("Challenge page: HTTP " ++ toString resp.status) }
      else pw_after_nav env (some resp.status) (some resp.url)
  | .ok none => pw_after_nav env none none
  | .error _ =>
      match env.httpGoto with
      | .ok g => pw_after_nav env (g.map GotoResp.status) (g.map GotoResp.url)
      | .error e2 =>
          { pwBase with error := some (strTake ("Both HTTPS and HTTP failed: " ++ e2) 200) }

/-- Result-quality score of PlaywrightFetcher._score_result. -/
def score_result (r : PwResult) : ℕ :=
  (if r.success = true then 100 else 0)
  + (if truthyBytes r.screenshot_bytes = true then 50 else 0)
  + r.nav_text.length + r.hero_text.length

/-- Challenge detection on a stored error message (the Python substring
test applied by fetch_with_retries). -/
def contains_challenge : Option String → Bool
  | some s => containsSub s "Challenge page"
  | none => false

/-- Fallback dict returned when every retry is exhausted with no result. -/
def exhaustedResult : PwResult :=
  { pwBase with error := some "All retries exhausted" }

/-- Retry loop body of PlaywrightFetcher.fetch_with_retries: runs the
remaining attempts, keeps the best non-successful result seen, returns a
successful attempt immediately and breaks on a detected challenge. Also
returns the number of attempts actually executed. -/
def retry_go (a : ℕ → PwAttemptEnv) : ℕ → ℕ → Option PwResult → PwResult × ℕ
  | 0, n, best => (best.getD exhaustedResult, n)
  | k + 1, n, best =>
      let r := pw_fetch_domain (a n)
      if r.success = true then (r, n + 1)
      else
        let best2 := match best with
          | none => some r
          | some b => if score_result b < score_result r then some r else some b
        if contains_challenge r.error = true then (best2.getD exhaustedResult, n + 1)
        else retry_go a k (n + 1) best2

/-- Embedding of PlaywrightFetcher.fetch_with_retries (lines 257-291),
called with the default of 3 attempts. -/
def fetch_with_retries (a : ℕ → PwAttemptEnv) (max_retries : ℕ) : PwResult × ℕ :=
  retry_go a max_retries 0 none

theorem pw_fetch_domain_wf (env : PwAttemptEnv) :
    (pw_fetch_domain env).success = false → (pw_fetch_domain env).error.isSome = true := by
  unfold pw_fetch_domain pw_after_nav
  rcases env.httpsGoto with e1 | g1
  · rcases env.httpGoto with e2 | g2
    · intro _; rfl
    · rcases h : env.rest with e | ext <;> simp
  · rcases g1 with _ | resp
    · rcases h : env.rest with e | ext <;> simp
    · by_cases hc : resp.status = 403 ∨ resp.status = 503
      · simp [hc]
      · rcases h : env.rest with e | ext <;> simp [hc]

theorem retry_go_wf (a : ℕ → PwAttemptEnv) (k n : ℕ) (best : Option PwResult)
    (hbest : ∀ b, best = some b → b.success = false → b.error.isSome = true) :
    ((retry_go a k n best).1.success = false → (retry_go a k n best).1.error.isSome = true) := by
  induction k generalizing n best with
  | zero =>
      intro hs
      rcases hb : best with _ | b
      · simp [retry_go, hb, exhaustedResult]
      · simp only [retry_go, hb, Option.getD_some] at hs ⊢
        exact hbest b hb hs
  | succ k ih =>
      intro hs
      simp only [retry_go] at hs ⊢
      by_cases hsucc : (pw_fetch_domain (a n)).success = true
      · simp [hsucc] at hs
      · simp only [hsucc, if_false] at hs ⊢
        set r := pw_fetch_domain (a n) with hr
        have hrwf : r.success = false → r.error.isSome = true := pw_fetch_domain_wf (a n)
        have hbest2 : ∀ b, (match best with
            | none => some r
            | some b => if score_result b < score_result r then some r else some b) = some b
            → b.success = false → b.error.isSome = true := by
          intro b hb
          rcases best with _ | b0
          · simp at hb; subst hb; exact hrwf
          · simp only at hb
            by_cases hlt : score_result b0 < score_result r
            · simp [hlt] at hb; subst hb; exact hrwf
            · simp [hlt] at hb; subst hb
              exact hbest b0 rfl
        by_cases hch : contains_challenge r.error = true
        · simp only [hch, if_true] at hs ⊢
          rcases best with _ | b0
          · simp at hs ⊢
            exact hrwf hs
          · simp only at hs ⊢
            by_cases hlt : score_result b0 < score_result r
            · simp [hlt] at hs ⊢; exact hrwf hs
            · simp [hlt] at hs ⊢; exact hbest b0 rfl hs
        · simp only [hch, if_false] at hs ⊢
          exact ih _ _ hbest2 hs

theorem fetch_with_retries_wf (a : ℕ → PwAttemptEnv) (m : ℕ) :
    (fetch_with_retries a m).1.success = false
    → (fetch_with_retries a m).1.error.isSome = true :=
  retry_go_wf a m 0 none (by intro b hb; cases hb)

/-! ## Commercial fallback fetcher (firecrawl_fetcher.py, FirecrawlFetcher) -/

/-- Result dict of FirecrawlFetcher.fetch_domain (the fields consumed by
the orchestrator). -/
structure FcResult where
  success : Bool
  nav_text : List String
  hero_text : List String
  error : Option String
deriving DecidableEq

/-- Response of the Firecrawl scrape API: HTTP status, the success flag of
the JSON body, an optional error string in the body, the markdown content
and the navigation/heading candidates its markdown parse yields (the
line-level markdown parsing is supplied by the environment). -/
structure FcApi where
  status : ℕ
  ok : Bool
  apiError : Option String
  markdown : String
  parsedNav : List String
  parsedHero : List String

/-- Embedding of FirecrawlFetcher.fetch_domain (firecrawl_fetcher.py lines
25-110): a non-200 response or an API-reported failure is terminal with an
error message; on success the markdown-derived nav/heading candidates are
capped at 150 and 20. -/
def fc_fetch_domain (call : Except String FcApi) : FcResult :=
  match call with
  | .error e => ⟨false, [], [], some (strTake e 200)⟩
  | .ok api =>
      if api.status ≠ 200 then
        ⟨false, [], [], some ("Firecrawl API error: " ++ toString api.status)⟩
      else if api.ok = false then
        ⟨false, [], [], some (api.apiError.getD "Unknown Firecrawl error")⟩
      else
        ⟨true,
          (if api.markdown ≠ "" then api.parsedNav.take 150 else []),
          (if api.markdown ≠ "" then api.parsedHero.take 20 else []),
          none⟩

theorem fc_fetch_domain_wf (call : Except String FcApi) :
    (fc_fetch_domain call).success = false → (fc_fetch_domain call).error.isSome = true := by
  unfold fc_fetch_domain
  rcases call with e | api
  · intro _; rfl
  · by_cases h1 : api.status ≠ 200
    · simp [h1]
    · by_cases h2 : api.ok = false <;> simp [h1, h2]

/-! ## Orchestrator (classifier_service.py, ClassifierService.classify_domain) -/

/-- Final classification result dict assembled by classify_domain (the
timestamp fields are omitted from the model). -/
structure ClassificationResult where
  label : String
  confidence : ℚ
  text_score : Option ℚ
  vision_score : Option ℚ
  final_score : Option ℚ
  image_count : ℕ
  stage_used : Option String
  http_status : Option ℕ
  final_url : Option String
  nav_count : ℕ
  heading_count : ℕ
  error : Option String
deriving DecidableEq

/-- Term-match counting of FeatureExtractor.calculate_text_score (lines
336-376): a deterministic function from the nav, heading and CTA text lists
to the bodywear and generalist whole-word match counts. The regex scan over
the joined corpus and the configured dictionaries are abstracted as an
arbitrary pure function of the text, which is all the claims depend on. -/
def CountFn : Type := List String → List String → List String → ℕ × ℕ

/-- Text score of a feature set: calculate_text_score applied to the term
counts of its text fields, with the configured penalty weight. -/
def text_score_of (cfg : Config) (ct : CountFn) (f : Features) : ℚ :=
  let c := ct f.nav_text f.hero_text f.cta_text
  calculate_text_score cfg.scoring.generalist_penalty_weight c.1 c.2

/-- Environment of one classify_domain call: the browser initialisation
outcome, the Stage 1 HTTP fetch result, the per-attempt browser
environments, the Firecrawl API call outcome and the vision call
outcomes. -/
structure ClassifyEnv where
  ensureBrowser : Except String Unit
  http : HttpResult
  pwAttempts : ℕ → PwAttemptEnv
  fcCall : Except String FcApi
  venv : VisionEnv

/-- Output of the modelled classify_domain: the result dict plus a trace of
which stages were invoked, how many browser retry attempts ran, the feature
set handed to the scorer (none when classification ended before scoring)
and which vision path the scorer took. -/
structure ClassifyOutput where
  result : ClassificationResult
  usedPwSingle : Bool
  usedPwRetries : Bool
  pwAttemptCount : ℕ
  usedFirecrawl : Bool
  scorerFeatures : Option Features
  visionPath : VisionPath

/-- Result dict as initialised at the top of classify_domain. -/
def initResult : ClassificationResult :=
  ⟨"Error", 0, none, none, none, 0, none, none, none, 0, 0, none⟩

/-- Tail of classify_domain once a feature set exists (lines 221-249):
recompute the text score, store the nav/heading evidence, run the scorer,
merge its fields into the result, adjust stage_used with the "+vision"
suffix when vision actually contributed, and clear the error field. -/
def finish_classification (cfg : Config) (ct : CountFn) (venv : VisionEnv)
    (base : ClassificationResult) (f : Features) (stage_used : String) :
    ClassificationResult × VisionPath :=
  let t := text_score_of cfg ct f
  let cls := scorer_classify cfg.vision cfg.scoring f t venv
  let su :=
    if cls.stage = "B" ∧ cls.vision_score.isSome = true then
      (if endsWithB stage_used "+vision" = false then stage_used ++ "+vision" else stage_used)
    else stage_used
  ({ base with
      nav_count := f.nav_text.length
      heading_count := f.hero_text.length
      label := cls.label
      confidence := cls.confidence
      text_score := some cls.text_score
      vision_score := cls.vision_score
      final_score := some cls.final_score
      image_count := cls.image_count
      stage_used := some su
      error := none }, cls.visionPath)

/-- Feature dict built from a successful Stage 1 HTTP result (lines
136-145): CTA and image lists are empty, no screenshot. -/
def stage1_features (http : HttpResult) : Features :=
  ⟨http.nav_text, http.hero_text, [], [], none⟩

/-- Stage 1 branch of classify_domain (lines 134-170): on a borderline text
score with vision enabled, a single browser fetch is made purely to capture
a screenshot and stage_used becomes "http+vision" when one is obtained. -/
def classify_http_branch (cfg : Config) (ct : CountFn) (env : ClassifyEnv) : ClassifyOutput :=
  let f0 := stage1_features env.http
  let t := text_score_of cfg ct f0
  if cfg.vision.enabled = true ∧ cfg.scoring.stage_b_trigger_lo ≤ t
      ∧ t ≤ cfg.scoring.stage_b_trigger_hi then
    let pw := pw_fetch_domain (env.pwAttempts 0)
    if truthyBytes pw.screenshot_bytes = true then
      let f := { f0 with screenshot_bytes := pw.screenshot_bytes }
      let fin := finish_classification cfg ct env.venv initResult f "http+vision"
      ⟨fin.1, true, false, 0, false, some f, fin.2⟩
    else
      let fin := finish_classification cfg ct env.venv initResult f0 "http"
      ⟨fin.1, true, false, 0, false, some f0, fin.2⟩
  else
    let fin := finish_classification cfg ct env.venv initResult f0 "http"
    ⟨fin.1, false, false, 0, false, some f0, fin.2⟩

/-- Stage 2/3 branch of classify_domain (lines 172-219): the browser retry
ladder runs; its result is used whenever it succeeded or captured a
screenshot; otherwise the Firecrawl fallback is invoked if configured; the
remaining cases return the stored error message with the Error label. -/
def classify_pw_branch (cfg : Config) (ct : CountFn) (env : ClassifyEnv) : ClassifyOutput :=
  let pwr := fetch_with_retries env.pwAttempts 3
  let pw := pwr.1
  if pw.success = true ∨ truthyBytes pw.screenshot_bytes = true then
    let f : Features := ⟨pw.nav_text, pw.hero_text, [], [], pw.screenshot_bytes⟩
    let base := { initResult with http_status := pw.http_status, final_url := pw.final_url }
    let fin := finish_classification cfg ct env.venv base f "playwright"
    ⟨fin.1, false, true, pwr.2, false, some f, fin.2⟩
  else if cfg.firecrawlConfigured = true then
    let fc := fc_fetch_domain env.fcCall
    if fc.success = true then
      let f : Features := ⟨fc.nav_text, fc.hero_text, [], [], none⟩
      let fin := finish_classification cfg ct env.venv initResult f "firecrawl"
      ⟨fin.1, false, true, pwr.2, true, some f, fin.2⟩
    else
      ⟨{ initResult with error := fc.error }, false, true, pwr.2, true, none, VisionPath.noVision⟩
  else
    ⟨{ initResult with error := pw.error }, false, true, pwr.2, false, none, VisionPath.noVision⟩

/-- Embedding of ClassifierService.classify_domain (classifier_service.py
lines 95-258). The environment exception surface of the try block is the
browser initialisation (the fetchers catch their own exceptions
internally); its message is truncated to 500 characters into the error
field along the catch-all path. -/
def classify_domain (cfg : Config) (ct : CountFn) (env : ClassifyEnv) : ClassifyOutput :=
  match env.ensureBrowser with
  | .error e =>
      ⟨{ initResult with error := some (strTake e 500) }, false, false, 0, false, none,
        VisionPath.noVision⟩
  | .ok _ =>
      if env.http.success = true ∧ 5 ≤ env.http.nav_text.length
      then classify_http_branch cfg ct env
      else classify_pw_branch cfg ct env

/-! Helper lemmas about the scorer and the classification tail. -/

theorem finish_error_none (cfg : Config) (ct : CountFn) (venv : VisionEnv)
    (base : ClassificationResult) (f : Features) (su : String) :
    (finish_classification cfg ct venv base f su).1.error = none := rfl

theorem finish_label (cfg : Config) (ct : CountFn) (venv : VisionEnv)
    (base : ClassificationResult) (f : Features) (su : String) :
    (finish_classification cfg ct venv base f su).1.label
      = (scorer_classify cfg.vision cfg.scoring f (text_score_of cfg ct f) venv).label := rfl

theorem finish_vision_score (cfg : Config) (ct : CountFn) (venv : VisionEnv)
    (base : ClassificationResult) (f : Features) (su : String) :
    (finish_classification cfg ct venv base f su).1.vision_score
      = (scorer_classify cfg.vision cfg.scoring f (text_score_of cfg ct f) venv).vision_score := rfl

theorem finish_text_score (cfg : Config) (ct : CountFn) (venv : VisionEnv)
    (base : ClassificationResult) (f : Features) (su : String) :
    (finish_classification cfg ct venv base f su).1.text_score
      = some (scorer_classify cfg.vision cfg.scoring f
          (text_score_of cfg ct f) venv).text_score := rfl

theorem finish_final_score (cfg : Config) (ct : CountFn) (venv : VisionEnv)
    (base : ClassificationResult) (f : Features) (su : String) :
    (finish_classification cfg ct venv base f su).1.final_score
      = some (scorer_classify cfg.vision cfg.scoring f
          (text_score_of cfg ct f) venv).final_score := rfl

theorem finish_image_count (cfg : Config) (ct : CountFn) (venv : VisionEnv)
    (base : ClassificationResult) (f : Features) (su : String) :
    (finish_classification cfg ct venv base f su).1.image_count
      = (scorer_classify cfg.vision cfg.scoring f (text_score_of cfg ct f) venv).image_count := rfl

theorem finish_path (cfg : Config) (ct : CountFn) (venv : VisionEnv)
    (base : ClassificationResult) (f : Features) (su : String) :
    (finish_classification cfg ct venv base f su).2
      = (scorer_classify cfg.vision cfg.scoring f (text_score_of cfg ct f) venv).visionPath := rfl

theorem finish_stage_used (cfg : Config) (ct : CountFn) (venv : VisionEnv)
    (base : ClassificationResult) (f : Features) (su : String) :
    (finish_classification cfg ct venv base f su).1.stage_used
      = some (if (scorer_classify cfg.vision cfg.scoring f
              (text_score_of cfg ct f) venv).stage = "B"
            ∧ (scorer_classify cfg.vision cfg.scoring f
              (text_score_of cfg ct f) venv).vision_score.isSome = true
          then (if endsWithB su "+vision" = false then su ++ "+vision" else su)
          else su) := rfl

theorem finish_label_mem (cfg : Config) (ct : CountFn) (venv : VisionEnv)
    (base : ClassificationResult) (f : Features) (su : String) :
    (finish_classification cfg ct venv base f su).1.label ∈ nonErrorLabels := by
  rw [finish_label, scorer_classify_label]
  exact assign_label_mem _ _

theorem finish_stage_used_cases (cfg : Config) (ct : CountFn) (venv : VisionEnv)
    (base : ClassificationResult) (f : Features) (su : String) :
    (finish_classification cfg ct venv base f su).1.stage_used = some su
    ∨ (finish_classification cfg ct venv base f su).1.stage_used
        = some (su ++ "+vision") := by
  rw [finish_stage_used]
  split_ifs <;> simp

/-- The screenshot analysis yields no score on any exception, whether or
not the message matches a quota phrase. -/
theorem analyze_screenshot_bytes_error (e : String) :
    analyze_screenshot_bytes (Except.error e) = none := by
  simp [analyze_screenshot_bytes]

/-- With no product images and a failing screenshot call, the vision step
yields no score. -/
theorem scorer_vs_none_of_call_error (vc : VisionConfig) (sc : ScoringConfig) (f : Features)
    (t : ℚ) (venv : VisionEnv) (msg : String)
    (himg : f.image_urls = []) (hc : venv.screenshotCall = Except.error msg) :
    (scorer_vision_step vc sc f t venv).1 = none := by
  unfold scorer_vision_step
  have hshot : analyze_screenshot_bytes venv.screenshotCall = none := by
    rw [hc]; exact analyze_screenshot_bytes_error msg
  split_ifs with h1 h2 h3
  · exact absurd himg h2
  · rw [hshot]
  · rfl
  · rfl

/-- With no product images the vision step never takes the image path. -/
theorem scorer_path_ne_viaImages (vc : VisionConfig) (sc : ScoringConfig) (f : Features)
    (t : ℚ) (venv : VisionEnv) (himg : f.image_urls = []) :
    (scorer_vision_step vc sc f t venv).2.2 ≠ VisionPath.viaImages := by
  unfold scorer_vision_step
  split_ifs with h1 h2 h3
  · exact absurd himg h2
  · split <;> simp
  · simp
  · simp

/-- With no product images the reported image count is at most 1. -/
theorem scorer_image_count_le_one (vc : VisionConfig) (sc : ScoringConfig) (f : Features)
    (t : ℚ) (venv : VisionEnv) (himg : f.image_urls = []) :
    (scorer_vision_step vc sc f t venv).2.1 ≤ 1 := by
  unfold scorer_vision_step
  split_ifs with h1 h2 h3
  · exact absurd himg h2
  · split <;> simp
  · simp
  · simp

/-- With at least 5 nav terms and no borderline trigger, the scorer needs
no vision at all. -/
theorem scorer_vs_none_of_sufficient (vc : VisionConfig) (sc : ScoringConfig) (f : Features)
    (t : ℚ) (venv : VisionEnv) (h5 : 5 ≤ f.nav_text.length)
    (hnb : ¬(vc.enabled = true ∧ sc.stage_b_trigger_lo ≤ t ∧ t ≤ sc.stage_b_trigger_hi)) :
    (scorer_vision_step vc sc f t venv).1 = none := by
  unfold scorer_vision_step
  rw [if_neg]
  intro hneed
  rcases hneed with ⟨he, _, hor⟩
  rcases hor with hr | hf
  · exact hnb ⟨he, hr.1, hr.2⟩
  · exact absurd hf.1 (by omega)

/-- Branch equation: a failing browser initialisation short-circuits to the
catch-all error result. -/
theorem classify_domain_err (cfg : Config) (ct : CountFn) (env : ClassifyEnv) (e : String)
    (hb : env.ensureBrowser = Except.error e) :
    classify_domain cfg ct env
      = ⟨{ initResult with error := some (strTake e 500) }, false, false, 0, false, none,
          VisionPath.noVision⟩ := by
  unfold classify_domain
  rw [hb]

/-- Branch equation: with the browser available, classification proceeds
through the Stage 1 sufficiency test. -/
theorem classify_domain_ok (cfg : Config) (ct : CountFn) (env : ClassifyEnv) (u : Unit)
    (hb : env.ensureBrowser = Except.ok u) :
    classify_domain cfg ct env
      = if env.http.success = true ∧ 5 ≤ env.http.nav_text.length
        then classify_http_branch cfg ct env
        else classify_pw_branch cfg ct env := by
  unfold classify_domain
  rw [hb]

/-- Exhaustive case analysis of classify_domain: either classification
ended on an error path (no features reached the scorer, Error label,
populated error field), or the result is the classification tail applied
to a feature set with an empty image list. -/
theorem classify_cases (cfg : Config) (ct : CountFn) (env : ClassifyEnv) :
    ((classify_domain cfg ct env).scorerFeatures = none
      ∧ (classify_domain cfg ct env).result.label = "Error"
      ∧ (classify_domain cfg ct env).result.error.isSome = true
      ∧ (classify_domain cfg ct env).visionPath = VisionPath.noVision
      ∧ (classify_domain cfg ct env).result.image_count = 0)
    ∨ (∃ f base su, (classify_domain cfg ct env).scorerFeatures = some f
        ∧ f.image_urls = []
        ∧ (classify_domain cfg ct env).result = (finish_classification cfg ct env.venv base f su).1
        ∧ (classify_domain cfg ct env).visionPath
            = (finish_classification cfg ct env.venv base f su).2) := by
  rcases hb : env.ensureBrowser with e | u
  · rw [classify_domain_err cfg ct env e hb]
    exact Or.inl ⟨rfl, rfl, rfl, rfl, rfl⟩
  · rw [classify_domain_ok cfg ct env u hb]
    by_cases hh : env.http.success = true ∧ 5 ≤ env.http.nav_text.length
    · rw [if_pos hh]
      simp only [classify_http_branch]
      split_ifs with hbl htr
      · exact Or.inr ⟨_, initResult, "http+vision", rfl, rfl, rfl, rfl⟩
      · exact Or.inr ⟨_, initResult, "http", rfl, rfl, rfl, rfl⟩
      · exact Or.inr ⟨_, initResult, "http", rfl, rfl, rfl, rfl⟩
    · rw [if_neg hh]
      simp only [classify_pw_branch]
      split_ifs with hpw hfc hsucc
      · exact Or.inr ⟨_, _, "playwright", rfl, rfl, rfl, rfl⟩
      · exact Or.inr ⟨_, initResult, "firecrawl", rfl, rfl, rfl, rfl⟩
      · refine Or.inl ⟨rfl, rfl, ?_, rfl, rfl⟩
        exact fc_fetch_domain_wf env.fcCall (by simpa using hsucc)
      · refine Or.inl ⟨rfl, rfl, ?_, rfl, rfl⟩
        push_neg at hpw
        exact fetch_with_retries_wf env.pwAttempts 3 (by simpa using hpw.1)

theorem scorer_classify_image_count_eq (vc : VisionConfig) (sc : ScoringConfig) (f : Features)
    (t : ℚ) (venv : VisionEnv) :
    (scorer_classify vc sc f t venv).image_count = (scorer_vision_step vc sc f t venv).2.1 := rfl

theorem scorer_classify_visionPath_eq (vc : VisionConfig) (sc : ScoringConfig) (f : Features)
    (t : ℚ) (venv : VisionEnv) :
    (scorer_classify vc sc f t venv).visionPath = (scorer_vision_step vc sc f t venv).2.2 := rfl

/-! ## Claim C2: result invariant of classify_domain -/

/-- Concrete configuration for the C2 counterexample (the values are
irrelevant to the failing path). -/
def cfgC2 : Config := ⟨⟨false, false, 3⟩, ⟨2/5, 3/4, 6/10, 4/10, 4/5, 13/20, 9/20, 1/2⟩, false⟩

/-- Term counting yielding no matches. -/
def ctZero : CountFn := fun _ _ _ => (0, 0)

/-- Browser-attempt environment whose navigation fails outright. -/
def pwEnvFail : PwAttemptEnv :=
  ⟨Except.error "net down", Except.error "net down", none, none, Except.error "never"⟩

/-- C7: whenever the vision screenshot call fails with any exception
(quota/rate-limit or otherwise — the distinction only affects reporting)
in a classification that reached the scorer, the vision stage returns no
score, the classification still gets a non-error label with no error, and
the final score equals the text-only score. -/
theorem C7_vision_failure_graceful (cfg : Config) (ct : CountFn) (env : ClassifyEnv)
    (msg : String) (f : Features)
    (hcall : env.venv.screenshotCall = Except.error msg)
    (hreach : (classify_domain cfg ct env).scorerFeatures = some f) :
    (classify_domain cfg ct env).result.vision_score = none
    ∧ (classify_domain cfg ct env).result.error = none
    ∧ (classify_domain cfg ct env).result.label ∈ nonErrorLabels
    ∧ (classify_domain cfg ct env).result.final_score
        = (classify_domain cfg ct env).result.text_score := by
  rcases classify_cases cfg ct env with ⟨hsf, _, _, _, _⟩ | ⟨f2, base, su, hsf, himg, hres, _⟩
  · rw [hsf] at hreach
    cases hreach
  · rw [hsf] at hreach
    injection hreach with hf
    subst hf
    have hvs : (scorer_vision_step cfg.vision cfg.scoring f2
        (text_score_of cfg ct f2) env.venv).1 = none :=
      scorer_vs_none_of_call_error cfg.vision cfg.scoring f2
        (text_score_of cfg ct f2) env.venv msg himg hcall
    refine ⟨?_, ?_, ?_, ?_⟩
    · rw [hres, finish_vision_score, scorer_classify_vision_score, hvs]
    · rw [hres]
      exact finish_error_none cfg ct env.venv base f2 su
    · rw [hres]
      exact finish_label_mem cfg ct env.venv base f2 su
    · rw [hres, finish_final_score, finish_text_score, scorer_classify_text_score]
      rw [scorer_classify_final_score, hvs]
      rfl

/-- Environment for the C7 witness: a sufficient Stage 1 fetch with vision
disabled, and a vision screenshot call that would fail with a rate-limit
error. -/
def envC7 : ClassifyEnv :=
  ⟨Except.ok (), ⟨true, some 200, some "https://d/", ["a1", "b2", "c3", "d4", "e5"], [], [], none⟩,
    fun _ => pwEnvFail, Except.error "no key", ⟨[], Except.error "rate limit hit"⟩⟩

/-- Witness for C7 at a concrete environment. -/
theorem C7_vision_failure_graceful_witness :
    (classify_domain cfgC2 ctZero envC7).result.vision_score = none
    ∧ (classify_domain cfgC2 ctZero envC7).result.error = none
    ∧ (classify_domain cfgC2 ctZero envC7).result.label ∈ nonErrorLabels
    ∧ (classify_domain cfgC2 ctZero envC7).result.final_score
        = (classify_domain cfgC2 ctZero envC7).result.text_score :=
  C7_vision_failure_graceful cfgC2 ctZero envC7 "rate limit hit"
    (stage1_features envC7.http) rfl (by decide)

/-! ## Claim C10: the scorer never receives product image URLs -/

/-- C10: in every classification, the feature set handed to the scorer has
an empty image_urls list, the vision stage never takes the per-product-image
path (only the screenshot can be analyzed), and the reported image_count is
at most 1. -/
theorem C10_scorer_images_empty (cfg : Config) (ct : CountFn) (env : ClassifyEnv) :
    ((classify_domain cfg ct env).scorerFeatures.map Features.image_urls).getD [] = []
    ∧ (classify_domain cfg ct env).visionPath ≠ VisionPath.viaImages
    ∧ (classify_domain cfg ct env).result.image_count ≤ 1 := by
  rcases classify_cases cfg ct env with ⟨hsf, _, _, hvp, hic⟩ | ⟨f, base, su, hsf, himg, hres, hvp⟩
  · rw [hsf, hvp, hic]
    exact ⟨rfl, by simp, by omega⟩
  · refine ⟨?_, ?_, ?_⟩
    · rw [hsf]
      simp [himg]
    · rw [hvp, finish_path, scorer_classify_visionPath_eq]
      exact scorer_path_ne_viaImages cfg.vision cfg.scoring f (text_score_of cfg ct f)
        env.venv himg
    · rw [hres, finish_image_count, scorer_classify_image_count_eq]
      exact scorer_image_count_le_one cfg.vision cfg.scoring f (text_score_of cfg ct f)
        env.venv himg

/-! ## Claim C1: Stage 1 sufficiency skips the later fetch stages -/

/-- C1 amended: when the Stage 1 HTTP fetch succeeds with at least 5 nav
terms, the Stage 2 retry ladder and the Stage 3 commercial fallback are
never invoked and the working feature set is the HTTP one; stage_used is
"http" or "http+vision". If moreover vision is disabled or the text score
is outside the stage-B trigger range, no browser call is made at all and
stage_used is exactly "http". (In the borderline case a single browser
fetch may still run, solely to capture a screenshot for vision
validation.) -/
theorem C1_stage_skip (cfg : Config) (ct : CountFn) (env : ClassifyEnv)
    (hb : env.ensureBrowser = Except.ok ())
    (hs : env.http.success = true) (hn : 5 ≤ env.http.nav_text.length) :
    (classify_domain cfg ct env).usedPwRetries = false
    ∧ (classify_domain cfg ct env).usedFirecrawl = false
    ∧ (classify_domain cfg ct env).pwAttemptCount = 0
    ∧ (classify_domain cfg ct env).scorerFeatures.map Features.nav_text
        = some env.http.nav_text
    ∧ ((classify_domain cfg ct env).result.stage_used = some "http"
        ∨ (classify_domain cfg ct env).result.stage_used = some "http+vision")
    ∧ (¬(cfg.vision.enabled = true
          ∧ cfg.scoring.stage_b_trigger_lo ≤ text_score_of cfg ct (stage1_features env.http)
          ∧ text_score_of cfg ct (stage1_features env.http) ≤ cfg.scoring.stage_b_trigger_hi)
        → (classify_domain cfg ct env).usedPwSingle = false
          ∧ (classify_domain cfg ct env).result.stage_used = some "http") := by
  rw [classify_domain_ok cfg ct env () hb, if_pos ⟨hs, hn⟩]
  simp only [classify_http_branch]
  split_ifs with hbl htr
  · refine ⟨rfl, rfl, rfl, rfl, ?_, fun hnb => absurd hbl hnb⟩
    right
    rw [finish_stage_used]
    have he : endsWithB "http+vision" "+vision" = true := by decide
    simp [he]
  · exact ⟨rfl, rfl, rfl, rfl,
      finish_stage_used_cases cfg ct env.venv initResult (stage1_features env.http) "http",
      fun hnb => absurd hbl hnb⟩
  · have hvs : (scorer_vision_step cfg.vision cfg.scoring (stage1_features env.http)
        (text_score_of cfg ct (stage1_features env.http)) env.venv).1 = none :=
      scorer_vs_none_of_sufficient cfg.vision cfg.scoring (stage1_features env.http)
        (text_score_of cfg ct (stage1_features env.http)) env.venv hn hbl
    have hsu : (finish_classification cfg ct env.venv initResult
        (stage1_features env.http) "http").1.stage_used = some "http" := by
      rw [finish_stage_used]
      have hnone : (scorer_classify cfg.vision cfg.scoring (stage1_features env.http)
          (text_score_of cfg ct (stage1_features env.http)) env.venv).vision_score.isSome
          = false := by
        rw [scorer_classify_vision_score, hvs]
        rfl
      simp [hnone]
    exact ⟨rfl, rfl, rfl, rfl, Or.inl hsu, fun _ => ⟨rfl, hsu⟩⟩

/-- Configuration for the C1 counterexample: vision enabled with a client,
trigger band 2/5 to 3/4, default-style thresholds. -/
def cfgC1 : Config := ⟨⟨true, true, 3⟩, ⟨2/5, 3/4, 6/10, 4/10, 4/5, 13/20, 9/20, 1/2⟩, true⟩

/-- Term counting for the C1 counterexample: one bodywear match, no
generalist matches, so the text score is 1/2 — inside the trigger band. -/
def ctOne : CountFn := fun _ _ _ => (1, 0)

/-- Browser attempt that succeeds and captures a screenshot. -/
def pwEnvShot : PwAttemptEnv :=
  ⟨Except.ok (some ⟨200, "https://d/"⟩), Except.error "unused", none, some [1, 2, 3],
    Except.ok ⟨[], [], []⟩⟩

/-- Environment for the C1 counterexample: Stage 1 succeeds with 5 nav
terms, and the single screenshot fetch succeeds. -/
def envC1 : ClassifyEnv :=
  ⟨Except.ok (), ⟨true, some 200, some "https://d/", ["a1", "b2", "c3", "d4", "e5"], [], [], none⟩,
    fun _ => pwEnvShot, Except.error "unused", ⟨[], Except.ok (9/10)⟩⟩

/-- The Stage 1 text score of the C1 counterexample environment is 1/2. -/
theorem envC1_text_score :
    text_score_of cfgC1 ctOne (stage1_features envC1.http) = 1/2 := by
  show calculate_text_score (1/2) 1 0 = 1/2
  unfold calculate_text_score
  rw [max_eq_right] <;> norm_num

/-- C1 counterexample: with Stage 1 successful at exactly 5 nav terms and a
borderline text score, the Browser Fetcher is invoked (to capture a
screenshot for vision validation) and the final stage_used is
"http+vision", not "http" — contradicting the claim that Stage 2 is never
invoked and stage_used = "http" whenever Stage 1 yields at least 5 nav
terms. -/
theorem C1_counterexample :
    envC1.http.success = true ∧ 5 ≤ envC1.http.nav_text.length
    ∧ (classify_domain cfgC1 ctOne envC1).usedPwSingle = true
    ∧ (classify_domain cfgC1 ctOne envC1).result.stage_used = some "http+vision"
    ∧ (classify_domain cfgC1 ctOne envC1).result.stage_used ≠ some "http" := by
  have hh : envC1.http.success = true ∧ 5 ≤ envC1.http.nav_text.length := by decide
  have hbl : cfgC1.vision.enabled = true
      ∧ cfgC1.scoring.stage_b_trigger_lo ≤ text_score_of cfgC1 ctOne (stage1_features envC1.http)
      ∧ text_score_of cfgC1 ctOne (stage1_features envC1.http) ≤
          cfgC1.scoring.stage_b_trigger_hi := by
    refine ⟨rfl, ?_, ?_⟩ <;> rw [envC1_text_score] <;> norm_num [cfgC1]
  have htr : truthyBytes (pw_fetch_domain (envC1.pwAttempts 0)).screenshot_bytes = true := by
    decide
  have hout : classify_domain cfgC1 ctOne envC1 = classify_http_branch cfgC1 ctOne envC1 := by
    rw [classify_domain_ok cfgC1 ctOne envC1 () rfl, if_pos hh]
  have hbr : classify_http_branch cfgC1 ctOne envC1
      = ⟨(finish_classification cfgC1 ctOne envC1.venv initResult
            { stage1_features envC1.http with
                screenshot_bytes := (pw_fetch_domain (envC1.pwAttempts 0)).screenshot_bytes }
            "http+vision").1,
          true, false, 0, false,
          some { stage1_features envC1.http with
              screenshot_bytes := (pw_fetch_domain (envC1.pwAttempts 0)).screenshot_bytes },
          (finish_classification cfgC1 ctOne envC1.venv initResult
            { stage1_features envC1.http with
                screenshot_bytes := (pw_fetch_domain (envC1.pwAttempts 0)).screenshot_bytes }
            "http+vision").2⟩ := by
    simp only [classify_http_branch]
    rw [if_pos hbl, if_pos htr]
  have hsu : (finish_classification cfgC1 ctOne envC1.venv initResult
      { stage1_features envC1.http with
          screenshot_bytes := (pw_fetch_domain (envC1.pwAttempts 0)).screenshot_bytes }
      "http+vision").1.stage_used = some "http+vision" := by
    rw [finish_stage_used]
    have he : endsWithB "http+vision" "+vision" = true := by decide
    simp [he]
  refine ⟨hh.1, hh.2, ?_, ?_, ?_⟩
  · rw [hout, hbr]
  · rw [hout, hbr]
    exact hsu
  · rw [hout, hbr, hsu]
    simp

/-- Witness for the amended C1 at a concrete environment with vision
disabled: no browser call at all and stage_used = "http". -/
theorem C1_stage_skip_witness :
    (classify_domain cfgC2 ctZero envC7).usedPwRetries = false
    ∧ (classify_domain cfgC2 ctZero envC7).usedFirecrawl = false
    ∧ (classify_domain cfgC2 ctZero envC7).usedPwSingle = false
    ∧ (classify_domain cfgC2 ctZero envC7).result.stage_used = some "http" := by
  have h := C1_stage_skip cfgC2 ctZero envC7 rfl rfl (by decide)
  have hnb := h.2.2.2.2.2 (by
    intro hc
    exact absurd hc.1 (by decide))
  exact ⟨h.1, h.2.1, hnb.1, hnb.2⟩

/-! ## Claim C8: challenge responses short-circuit the browser retries -/

theorem containsSub_append_left (p suf : String) : containsSub (p ++ suf) p = true := by
  simp only [containsSub, List.any_eq_true]
  refine ⟨0, by simp [List.mem_range], ?_⟩
  simp [String.data_append, List.isPrefixOf_iff_prefix]

/-- A fetch_domain attempt whose HTTPS navigation returns a 403/503
response ends immediately as the challenge-evidence result. -/
theorem pw_fetch_domain_challenge (env : PwAttemptEnv) (resp : GotoResp)
    (hresp : env.httpsGoto = Except.ok (some resp))
    (hst : resp.status = 403 ∨ resp.status = 503) :
    pw_fetch_domain env
      = { pwBase with
          http_status := some resp.status
          final_url := some resp.url
          screenshot_bytes := env.challengeShot
          error := some ("Challenge page: HTTP " ++ toString resp.status) } := by
  unfold pw_fetch_domain
  rw [hresp]
  simp only [if_pos hst]

/-- The stored challenge error message is detected by the substring test
for any status rendering. -/
theorem contains_challenge_msg (s : String) :
    contains_challenge (some ("Challenge page: HTTP " ++ s)) = true := by
  show containsSub ("Challenge page: HTTP " ++ s) "Challenge page" = true
  have hsplit : "Challenge page: HTTP " ++ s = "Challenge page" ++ (": HTTP " ++ s) := by
    have : ("Challenge page: HTTP " : String) = "Challenge page" ++ ": HTTP " := by decide
    rw [this, String.append_assoc]
  rw [hsplit]
  exact containsSub_append_left _ _

/-- General short-circuit property of the retry loop: if the attempts
before index n + m neither succeed nor hit a challenge, and the attempt at
index n + m fails with a detected challenge, then the loop (entered with m
below the remaining budget k, and any tracked best made of failed
attempts) stops right after that attempt, having executed m + 1 more
attempts, and returns a non-successful result (the best-scored failed
attempt seen). -/
theorem retry_go_challenge (a : ℕ → PwAttemptEnv) :
    ∀ (m k n : ℕ) (best : Option PwResult), m < k →
    (∀ b, best = some b → b.success = false) →
    (∀ j, j < m → (pw_fetch_domain (a (n + j))).success = false
        ∧ contains_challenge (pw_fetch_domain (a (n + j))).error = false) →
    (pw_fetch_domain (a (n + m))).success = false →
    contains_challenge (pw_fetch_domain (a (n + m))).error = true →
    (retry_go a k n best).2 = n + m + 1 ∧ (retry_go a k n best).1.success = false := by
  intro m
  induction m with
  | zero =>
      intro k n best hm hbest hprev hsucc hch
      rw [Nat.add_zero] at hsucc hch
      match k, hm with
      | k2 + 1, _ =>
        simp only [retry_go]
        rw [if_neg (by rw [hsucc]; exact Bool.false_ne_true)]
        rw [if_pos hch]
        refine ⟨rfl, ?_⟩
        rcases best with _ | b
        · simpa using hsucc
        · by_cases hlt : score_result b < score_result (pw_fetch_domain (a n))
          · simpa [hlt] using hsucc
          · simpa [hlt] using hbest b rfl
  | succ m2 ih =>
      intro k n best hm hbest hprev hsucc hch
      match k, hm with
      | k2 + 1, _ =>
        have h0 := hprev 0 (by omega)
        rw [Nat.add_zero] at h0
        simp only [retry_go]
        rw [if_neg (by rw [h0.1]; exact Bool.false_ne_true)]
        rw [if_neg (by rw [h0.2]; exact Bool.false_ne_true)]
        have hbest2 : ∀ b, (match best with
            | none => some (pw_fetch_domain (a n))
            | some b0 => if score_result b0 < score_result (pw_fetch_domain (a n))
                then some (pw_fetch_domain (a n)) else some b0) = some b
            → b.success = false := by
          intro b hb2
          rcases best with _ | b0
          · simp only [Option.some.injEq] at hb2
            rw [← hb2]
            exact h0.1
          · by_cases hlt : score_result b0 < score_result (pw_fetch_domain (a n))
            · simp only [hlt, if_true, Option.some.injEq] at hb2
              rw [← hb2]
              exact h0.1
            · simp only [hlt, if_false, Option.some.injEq] at hb2
              rw [← hb2]
              exact hbest b0 rfl
        have hprev2 : ∀ j, j < m2 → (pw_fetch_domain (a (n + 1 + j))).success = false
            ∧ contains_challenge (pw_fetch_domain (a (n + 1 + j))).error = false := by
          intro j hj
          have := hprev (j + 1) (by omega)
          rwa [show n + (j + 1) = n + 1 + j by omega] at this
        rw [show n + (m2 + 1) = n + 1 + m2 by omega] at hsucc hch
        have hrec := ih k2 (n + 1) _ (by omega) hbest2 hprev2 hsucc hch
        exact ⟨hrec.1.trans (by omega), hrec.2⟩

/-- C8 amended: whenever a Browser Fetcher attempt (at any retry index i)
observes an HTTP 403/503 challenge response on its HTTPS navigation — the
earlier attempts having neither succeeded nor hit a challenge — the retry
ladder stops right there: exactly i + 1 attempts run and no further retry
is made. The orchestrator then proceeds to the Commercial Fallback Fetcher
(if configured, else a terminal error with stage_used unset) only when the
best result returned by the ladder carries no screenshot; when a screenshot
was captured, the orchestrator instead proceeds to scoring with the browser
result, stage_used "playwright" (or "playwright+vision"). -/
theorem C8_challenge_shortcircuit (cfg : Config) (ct : CountFn) (env : ClassifyEnv)
    (i : ℕ) (resp : GotoResp)
    (hb : env.ensureBrowser = Except.ok ())
    (hh : ¬(env.http.success = true ∧ 5 ≤ env.http.nav_text.length))
    (hi : i < 3)
    (hprev : ∀ j, j < i → (pw_fetch_domain (env.pwAttempts j)).success = false
        ∧ contains_challenge (pw_fetch_domain (env.pwAttempts j)).error = false)
    (hresp : (env.pwAttempts i).httpsGoto = Except.ok (some resp))
    (hst : resp.status = 403 ∨ resp.status = 503) :
    (classify_domain cfg ct env).usedPwRetries = true
    ∧ (classify_domain cfg ct env).pwAttemptCount = i + 1
    ∧ (truthyBytes (fetch_with_retries env.pwAttempts 3).1.screenshot_bytes = true →
        (classify_domain cfg ct env).usedFirecrawl = false
        ∧ ((classify_domain cfg ct env).result.stage_used = some "playwright"
            ∨ (classify_domain cfg ct env).result.stage_used = some "playwright+vision"))
    ∧ (truthyBytes (fetch_with_retries env.pwAttempts 3).1.screenshot_bytes = false →
        (classify_domain cfg ct env).usedFirecrawl = cfg.firecrawlConfigured
        ∧ (cfg.firecrawlConfigured = false →
            (classify_domain cfg ct env).result.label = "Error"
            ∧ (classify_domain cfg ct env).result.error.isSome = true
            ∧ (classify_domain cfg ct env).result.stage_used = none)) := by
  have hpwd := pw_fetch_domain_challenge (env.pwAttempts i) resp hresp hst
  have hsucc : (pw_fetch_domain (env.pwAttempts i)).success = false := by
    rw [hpwd]
    rfl
  have hch : contains_challenge (pw_fetch_domain (env.pwAttempts i)).error = true := by
    rw [hpwd]
    exact contains_challenge_msg (toString resp.status)
  have hgen := retry_go_challenge env.pwAttempts i 3 0 none hi
    (fun b hb2 => by cases hb2)
    (fun j hj => by simpa using hprev j hj)
    (by simpa using hsucc) (by simpa using hch)
  have hcount : (fetch_with_retries env.pwAttempts 3).2 = i + 1 :=
    hgen.1.trans (by omega)
  have hsuccF : (fetch_with_retries env.pwAttempts 3).1.success = false := hgen.2
  rw [classify_domain_ok cfg ct env () hb, if_neg hh]
  simp only [classify_pw_branch]
  by_cases hshot :
      truthyBytes (fetch_with_retries env.pwAttempts 3).1.screenshot_bytes = true
  · rw [if_pos (Or.inr hshot)]
    refine ⟨rfl, hcount, fun _ => ⟨rfl, ?_⟩, fun hfalse => ?_⟩
    · exact finish_stage_used_cases cfg ct env.venv _ _ "playwright"
    · rw [hshot] at hfalse
      cases hfalse
  · have hshotf :
        truthyBytes (fetch_with_retries env.pwAttempts 3).1.screenshot_bytes = false := by
      simpa using hshot
    rw [if_neg (by
      rintro (hcs | hcs)
      · rw [hsuccF] at hcs
        cases hcs
      · exact hshot hcs)]
    by_cases hfc : cfg.firecrawlConfigured = true
    · rw [if_pos hfc]
      by_cases hfcs : (fc_fetch_domain env.fcCall).success = true
      · rw [if_pos hfcs]
        refine ⟨rfl, hcount, fun htr => ?_, fun _ => ⟨by rw [hfc], fun hff => ?_⟩⟩
        · rw [hshotf] at htr
          cases htr
        · rw [hff] at hfc
          cases hfc
      · rw [if_neg hfcs]
        refine ⟨rfl, hcount, fun htr => ?_, fun _ => ⟨by rw [hfc], fun hff => ?_⟩⟩
        · rw [hshotf] at htr
          cases htr
        · rw [hff] at hfc
          cases hfc
    · rw [if_neg hfc]
      have hfcf : cfg.firecrawlConfigured = false := by simpa using hfc
      refine ⟨rfl, hcount, fun htr => ?_,
        fun _ => ⟨by rw [hfcf], fun _ =>
          ⟨rfl, fetch_with_retries_wf env.pwAttempts 3 hsuccF, rfl⟩⟩⟩
      rw [hshotf] at htr
      cases htr

/-- Challenge attempt for the C8 counterexample: HTTPS returns 503 and the
evidence screenshot succeeds. -/
def pwEnvChallenge : PwAttemptEnv :=
  ⟨Except.ok (some ⟨503, "https://d/"⟩), Except.error "unused", some [9, 9], none,
    Except.error "unused"⟩

/-- Configuration for the C8 counterexample: a Firecrawl fallback is
configured and vision is disabled. -/
def cfgC8 : Config := ⟨⟨false, false, 3⟩, ⟨2/5, 3/4, 6/10, 4/10, 4/5, 13/20, 9/20, 1/2⟩, true⟩

/-- Environment for the C8 counterexample: Stage 1 fails, attempt 1 of the
browser stage hits the 503 challenge with a captured screenshot. -/
def envC8 : ClassifyEnv :=
  ⟨Except.ok (), ⟨false, none, none, [], [], [], some "conn refused"⟩, fun _ => pwEnvChallenge,
    Except.ok ⟨200, true, none, "# ok", ["x"], ["y"]⟩, ⟨[], Except.error "quota"⟩⟩

/-- C8 counterexample: after the single challenge attempt (no retries), the
orchestrator does not proceed to the configured Commercial Fallback — the
challenge attempt captured a screenshot, so classification proceeds with
the browser result, stage_used "playwright". -/
theorem C8_counterexample :
    (classify_domain cfgC8 ctZero envC8).pwAttemptCount = 1
    ∧ cfgC8.firecrawlConfigured = true
    ∧ (classify_domain cfgC8 ctZero envC8).usedFirecrawl = false
    ∧ (classify_domain cfgC8 ctZero envC8).result.stage_used = some "playwright" := by
  refine ⟨?_, rfl, ?_, ?_⟩ <;> decide

/-- Challenge attempt without an evidence screenshot, used by the C8
witness as the second browser attempt. -/
def pwEnvChallengeNoShot : PwAttemptEnv :=
  ⟨Except.ok (some ⟨403, "https://d/"⟩), Except.error "unused", none, none,
    Except.error "unused"⟩

/-- Environment for the C8 witness: browser attempt 1 fails with a plain
network error (no challenge), attempt 2 observes the 403 challenge without
capturing a screenshot, and no fallback is configured. -/
def envC8w : ClassifyEnv :=
  ⟨Except.ok (), ⟨false, none, none, [], [], [], some "conn refused"⟩,
    fun n => if n = 0 then pwEnvFail else pwEnvChallengeNoShot,
    Except.error "unused", ⟨[], Except.error "quota"⟩⟩

/-- Witness for C8: applying the amended theorem at a concrete environment
whose challenge arrives on the second retry attempt (index 1): exactly two
attempts run, the fallback is not invoked and the result is a terminal
error. -/
theorem C8_challenge_shortcircuit_witness :
    (classify_domain cfgC2 ctZero envC8w).usedPwRetries = true
    ∧ (classify_domain cfgC2 ctZero envC8w).pwAttemptCount = 2
    ∧ (classify_domain cfgC2 ctZero envC8w).usedFirecrawl = false
    ∧ (classify_domain cfgC2 ctZero envC8w).result.label = "Error" := by
  have h := C8_challenge_shortcircuit cfgC2 ctZero envC8w 1 ⟨403, "https://d/"⟩ rfl
    (by decide) (by omega)
    (fun j hj => by
      have hj0 : j = 0 := by omega
      subst hj0
      exact ⟨by decide, by decide⟩)
    rfl (Or.inl rfl)
  have h4 := h.2.2.2 (by decide)
  refine ⟨h.1, h.2.1, ?_, (h4.2 rfl).1⟩
  rw [h4.1]
  rfl

/-- Witness for C10 at a concrete environment. -/
theorem C10_scorer_images_empty_witness :
    ((classify_domain cfgC2 ctZero envC7).scorerFeatures.map Features.image_urls).getD [] = []
    ∧ (classify_domain cfgC2 ctZero envC7).visionPath ≠ VisionPath.viaImages
    ∧ (classify_domain cfgC2 ctZero envC7).result.image_count ≤ 1 :=
  C10_scorer_images_empty cfgC2 ctZero envC7

end DomainClassifier
